import Mathlib

/-!
Shallow embedding of the backslash escape-resolver library (src/src/lib.rs).

Strings are modelled at the byte level, as the Rust code operates on the byte
vector of the input (Vec::from(input) for a str yields its UTF-8 bytes).
A byte is a Nat in 0..255.  The Rust entry points return
Result<String, FromUtf8Error> but may also panic (index out of bounds,
the unimplemented macro, or an explicit panic in ascii_to_hex); the
embedding makes the panic outcome explicit as a third result constructor.
-/

namespace Backslash

/-- Outcome of one library call: Ok bytes, a FromUtf8Error, or a panic.
The constructor aborted models a Rust panic (index out of bounds in the
scan loop, or the unimplemented macro in the unicode and quote entry points). -/
inductive EscResult where
  | ok (bytes : List Nat)
  | invalidUtf8
  | aborted
  deriving DecidableEq

/-- char_to_escape_sequence from src/src/lib.rs: maps the escape letter to the
escaped byte (n to newline 10, t to tab 9, r to carriage return 13, backslash 92
to itself, digit zero 48 to NUL 0), any other byte to itself.  The Rust function
works on char but is only applied to bytes cast to char, and a u8 round-trips
through char unchanged. -/
def char_to_escape_sequence (b : Nat) : Nat :=
  match b with
  | 110 => 10
  | 116 => 9
  | 114 => 13
  | 92 => 92
  | 48 => 0
  | _ => b

/-- is_simple_escape from src/src/lib.rs: true exactly for the bytes of
n, t, r, backslash and the digit zero. -/
def is_simple_escape (b : Nat) : Bool :=
  match b with
  | 110 | 116 | 114 | 92 | 48 => true
  | _ => false

/-- is_complex_escape from src/src/lib.rs: true exactly for the bytes of x and u. -/
def is_complex_escape (b : Nat) : Bool :=
  match b with
  | 120 | 117 => true
  | _ => false

/-- Modelled from the spec: escape_ascii calls is_escapable, which is nowhere
defined under src (the repository ships only is_simple_escape and
is_complex_escape).  Per the spec scan, the characters recognized after the
introducer are the simple-escape characters and the complex (hex-byte or
unicode) escape letters, so is_escapable is their disjunction. -/
def is_escapable (b : Nat) : Bool :=
  is_simple_escape b || is_complex_escape b

/-- ascii_to_hex from src/src/lib.rs: hex digit byte to its value 0..15.
The catch-all arm of the Rust match is a panic with the message
expected hex value; none models that panic, some v a normal return. -/
def ascii_to_hex (x : Nat) : Option Nat :=
  match x with
  | 48 => some 0
  | 49 => some 1
  | 50 => some 2
  | 51 => some 3
  | 52 => some 4
  | 53 => some 5
  | 54 => some 6
  | 55 => some 7
  | 56 => some 8
  | 57 => some 9
  | 97 | 65 => some 10
  | 98 | 66 => some 11
  | 99 | 67 => some 12
  | 100 | 68 => some 13
  | 101 | 69 => some 14
  | 102 | 70 => some 15
  | _ => none

/-- True when b is a UTF-8 continuation byte (0x80..0xBF). -/
def isContByte (b : Nat) : Bool :=
  decide (128 ≤ b ∧ b ≤ 191)

/-- Models the validation performed by String::from_utf8 in the Rust standard
library: standard UTF-8, rejecting overlong forms, surrogate code points
(lead byte 0xED with second byte at or above 0xA0) and values above 0x10FFFF
(lead bytes above 0xF4, or 0xF4 with second byte above 0x8F). -/
def validateUtf8 : List Nat → Bool
  | [] => true
  | b :: rest =>
    if b ≤ 127 then validateUtf8 rest
    else if b ≤ 193 then false
    else if b ≤ 223 then
      match rest with
      | b2 :: rest2 => isContByte b2 && validateUtf8 rest2
      | [] => false
    else if b ≤ 239 then
      match rest with
      | b2 :: b3 :: rest3 =>
        (if b = 224 then decide (160 ≤ b2 ∧ b2 ≤ 191)
         else if b = 237 then decide (128 ≤ b2 ∧ b2 ≤ 159)
         else isContByte b2) && isContByte b3 && validateUtf8 rest3
      | _ => false
    else if b ≤ 244 then
      match rest with
      | b2 :: b3 :: b4 :: rest4 =>
        (if b = 240 then decide (144 ≤ b2 ∧ b2 ≤ 191)
         else if b = 244 then decide (128 ≤ b2 ∧ b2 ≤ 143)
         else isContByte b2) && isContByte b3 && isContByte b4 && validateUtf8 rest4
      | _ => false
    else false

/-- The for loop of escape_ascii.  The Rust loop is
for i in 0..(v.len() - 1) with the range bound evaluated once, before any
mutation, so the loop body runs for exactly the original v.len() - 1 values of
i even while v.remove(i) shrinks the live vector; k counts the remaining
iterations.  Each iteration indexes v[i] (and v[i + 1] when v[i] is the
introducer 92), which panics when the index is out of bounds of the shrunk
vector; none models that panic.  On a recognized escape the introducer is
removed and the byte now at position i is overwritten by its escape value,
exactly as v.remove(i) followed by the v[i] assignment does. -/
def escapeIter : Nat → Nat → List Nat → Option (List Nat)
  | 0, _, v => some v
  | k + 1, i, v =>
    match v[i]? with
    | none => none
    | some b =>
      if b = 92 then
        match v[i + 1]? with
        | none => none
        | some b2 =>
          if is_escapable b2 then
            escapeIter k (i + 1) ((v.eraseIdx i).set i (char_to_escape_sequence b2))
          else escapeIter k (i + 1) v
      else escapeIter k (i + 1) v

/-- escape_ascii from src/src/lib.rs: empty input short-circuits to Ok of the
empty string; otherwise the in-place scan loop runs over the byte vector and
the result is validated by String::from_utf8. -/
def escape_ascii (input : List Nat) : EscResult :=
  if input.length < 1 then EscResult.ok []
  else
    match escapeIter (input.length - 1) 0 input with
    | none => EscResult.aborted
    | some v => if validateUtf8 v then EscResult.ok v else EscResult.invalidUtf8

/-- escape_bytes from src/src/lib.rs: its body is exactly a call to escape_ascii. -/
def escape_bytes (input : List Nat) : EscResult :=
  escape_ascii input

/-- escape_unicode from src/src/lib.rs: the body is the unimplemented macro,
which panics on every call, before looking at the input. -/
def escape_unicode (_input : List Nat) : EscResult :=
  EscResult.aborted

/-- escape_quotes from src/src/lib.rs: the body is the unimplemented macro,
which panics on every call, before looking at the input. -/
def escape_quotes (_input : List Nat) : EscResult :=
  EscResult.aborted

/-! Helper lemmas about the scan loop. -/

/-- When no byte of v is the introducer 92 and the iteration count stays within
the bounds of v, the loop reads every position without mutating anything. -/
theorem escapeIter_no_introducer :
    ∀ (k i : Nat) (v : List Nat), (∀ b ∈ v, b ≠ 92) → k + i ≤ v.length →
      escapeIter k i v = some v := by
  intro k
  induction k with
  | zero => intro i v _ _; rfl
  | succ k ih =>
    intro i v h hk
    have hi : i < v.length := by omega
    have hb : v[i] ≠ 92 := h v[i] (List.getElem_mem hi)
    have hget : v[i]? = some v[i] := List.getElem?_eq_getElem hi
    rw [escapeIter, hget]
    simp only [if_neg hb]
    exact ih (i + 1) v h (by omega)

/-! Claim theorems. -/

/-- Claim C1: the claim states that every entry point returns Ok or Err on every
input without panicking.  This is a code bug: escape_unicode and escape_quotes
panic via the unimplemented macro on every input (here the bytes of Hi), and
escape_ascii panics with an index out of bounds on the bytes of a backslash-n
escape repeated twice, because the loop range 0..(len - 1) is fixed before the
two remove calls shrink the vector. -/
theorem entry_points_can_panic :
    escape_unicode [72, 105] = EscResult.aborted ∧
    escape_quotes [72, 105] = EscResult.aborted ∧
    escape_ascii [92, 110, 92, 110] = EscResult.aborted := by
  refine ⟨rfl, rfl, ?_⟩
  decide

/-- Claim C2: the five cited single-escape examples resolve exactly as the claim
states (bytes of a-backslash-n-b give a 10 b, and likewise for tab 9, carriage
return 13, backslash 92 and NUL 0), but the universal statement is a code bug:
an input holding two simple escapes, the bytes of a-backslash-n-b-backslash-t-c,
panics with an index out of bounds instead of resolving both. -/
theorem simple_escape_examples :
    escape_ascii [97, 92, 110, 98] = EscResult.ok [97, 10, 98] ∧
    escape_ascii [97, 92, 116, 98] = EscResult.ok [97, 9, 98] ∧
    escape_ascii [97, 92, 114, 98] = EscResult.ok [97, 13, 98] ∧
    escape_ascii [97, 92, 92, 98] = EscResult.ok [97, 92, 98] ∧
    escape_ascii [97, 92, 48, 98] = EscResult.ok [97, 0, 98] ∧
    escape_ascii [97, 92, 110, 98, 92, 116, 99] = EscResult.aborted := by
  decide

/-- Claim C3: the claim states that escape_ascii decodes backslash-x-2-0 to the
byte 0x20, giving hello-space-world.  This is a code bug: the code has no hex
decoding at all; on the bytes of hello-backslash-x20-world it merely deletes the
introducer (x is escapable) and keeps x, 2, 0 as literal bytes, returning
hellox20world (120, 50, 48 in place of 32), which also makes the repository test
test_ascii_byte fail. -/
theorem hex_escape_not_decoded :
    escape_ascii [104, 101, 108, 108, 111, 92, 120, 50, 48, 119, 111, 114, 108, 100] =
      EscResult.ok [104, 101, 108, 108, 111, 120, 50, 48, 119, 111, 114, 108, 100] := by
  decide

/-- Claim C4: the claim states that escape_unicode decodes backslash-u-braced
1f980 to the crab code point.  This is a code bug: escape_unicode is the
unimplemented macro and panics on the bytes of Hello-backslash-u-1f980-world,
which also makes the repository test test_unicode_crab_emoji fail. -/
theorem unicode_escape_panics :
    escape_unicode
      [72, 101, 108, 108, 111, 92, 117, 123, 49, 102, 57, 56, 48, 125, 119, 111, 114, 108, 100] =
      EscResult.aborted := rfl

/-- Claim C5: the claim states a hex ceiling of 0x7F for Ascii and 0xFF for Byte
with HexValueOutOfRange above the ceiling.  This is a code bug: no hex decoding
or range check exists; on the bytes of hello-backslash-x7f-world escape_bytes
returns hellox7fworld (no 0x7F byte embedded), and escape_ascii returns the very
same value on the same input, so the two dialects never diverge on 0x80..0xFF. -/
theorem hex_ceiling_not_enforced :
    escape_bytes [104, 101, 108, 108, 111, 92, 120, 55, 102, 119, 111, 114, 108, 100] =
      EscResult.ok [104, 101, 108, 108, 111, 120, 55, 102, 119, 111, 114, 108, 100] ∧
    escape_ascii [104, 101, 108, 108, 111, 92, 120, 55, 102, 119, 111, 114, 108, 100] =
      escape_bytes [104, 101, 108, 108, 111, 92, 120, 55, 102, 119, 111, 114, 108, 100] := by
  exact ⟨by decide, rfl⟩

/-- Claim C6: the claim states that every entry point is the identity on inputs
without the introducer byte 92.  The implemented entry points escape_ascii and
escape_bytes indeed return Ok of any valid-UTF-8 introducer-free input
unchanged, but the claim is a code bug for the other two entry points:
escape_unicode and escape_quotes panic via the unimplemented macro even on the
introducer-free bytes of abc. -/
theorem no_backslash_identity (v : List Nat)
    (hnb : ∀ b ∈ v, b ≠ 92) (hvalid : validateUtf8 v = true) :
    escape_ascii v = EscResult.ok v ∧ escape_bytes v = EscResult.ok v ∧
    escape_unicode [97, 98, 99] = EscResult.aborted ∧
    escape_quotes [97, 98, 99] = EscResult.aborted := by
  have ha : escape_ascii v = EscResult.ok v := by
    unfold escape_ascii
    by_cases hlen : v.length < 1
    · have hnil : v = [] := List.eq_nil_of_length_eq_zero (by omega)
      subst hnil
      simp
    · rw [if_neg hlen,
        escapeIter_no_introducer (v.length - 1) 0 v hnb (by omega)]
      simp [hvalid]
  exact ⟨ha, ha, rfl, rfl⟩

/-- Witness for no_backslash_identity at the concrete introducer-free input abc. -/
theorem no_backslash_identity_witness :
    (∀ b ∈ [97, 98, 99], b ≠ 92) ∧ validateUtf8 [97, 98, 99] = true ∧
    (escape_ascii [97, 98, 99] = EscResult.ok [97, 98, 99] ∧
     escape_bytes [97, 98, 99] = EscResult.ok [97, 98, 99] ∧
     escape_unicode [97, 98, 99] = EscResult.aborted ∧
     escape_quotes [97, 98, 99] = EscResult.aborted) :=
  ⟨by decide, by decide, no_backslash_identity [97, 98, 99] (by decide) (by decide)⟩

/-- Claim C7: the claim states that all four entry points return Ok of the empty
string on empty input.  escape_ascii and escape_bytes do (the length guard
short-circuits), but the claim is a code bug for escape_unicode and
escape_quotes, which panic via the unimplemented macro before looking at the
input. -/
theorem empty_input_results :
    escape_ascii [] = EscResult.ok [] ∧ escape_bytes [] = EscResult.ok [] ∧
    escape_unicode [] = EscResult.aborted ∧ escape_quotes [] = EscResult.aborted :=
  ⟨rfl, rfl, rfl, rfl⟩

/-- Claim C8: the cited example holds (the bytes of Hello-world ending in a
lone trailing backslash come back unchanged, Ok), but the universal statement is
a code bug: on the bytes of backslash-n-backslash, after the first escape is
resolved the loop still reaches the old index bound, finds the trailing
introducer at the new last position and panics indexing one past the end. -/
theorem trailing_backslash_results :
    escape_ascii [72, 101, 108, 108, 111, 32, 119, 111, 114, 108, 100, 92] =
      EscResult.ok [72, 101, 108, 108, 111, 32, 119, 111, 114, 108, 100, 92] ∧
    escape_ascii [92, 110, 92] = EscResult.aborted := by
  decide

/-- Claim C9 counterexample: the claim states that an out-of-domain byte yields
a typed failure value rather than a fatal abort, but on the non-hex byte 103
(the letter g) ascii_to_hex takes the catch-all arm of its match, which is a
panic (modelled by none), not a returned failure value. -/
theorem ascii_to_hex_counterexample : ascii_to_hex 103 = none := rfl

set_option maxRecDepth 8192 in
/-- Claim C9 (amended): over the u8 domain, ascii_to_hex returns the value
0..15 of every hex digit byte (0..9, a..f, A..F) and panics (modelled by none)
on every other byte instead of returning a typed failure. -/
theorem ascii_to_hex_spec (b : Nat) (hb : b < 256) :
    ascii_to_hex b =
      (if 48 ≤ b ∧ b ≤ 57 then some (b - 48)
       else if 97 ≤ b ∧ b ≤ 102 then some (b - 87)
       else if 65 ≤ b ∧ b ≤ 70 then some (b - 55)
       else none) := by
  revert hb
  revert b
  decide

/-- Witness for ascii_to_hex_spec at the concrete hex digit byte 97 (letter a). -/
theorem ascii_to_hex_spec_witness :
    (97 : Nat) < 256 ∧
    ascii_to_hex 97 =
      (if 48 ≤ (97 : Nat) ∧ (97 : Nat) ≤ 57 then some (97 - 48)
       else if 97 ≤ (97 : Nat) ∧ (97 : Nat) ≤ 102 then some (97 - 87)
       else if 65 ≤ (97 : Nat) ∧ (97 : Nat) ≤ 70 then some (97 - 55)
       else none) :=
  ⟨by decide, ascii_to_hex_spec 97 (by decide)⟩

/-- Claim C10: escape_bytes and escape_ascii are pointwise the same function;
the body of escape_bytes is exactly a call to escape_ascii, so the two entry
points cannot differ on any input, hex escapes above 0x7F included. -/
theorem escape_bytes_eq_escape_ascii :
    ∀ input : List Nat, escape_bytes input = escape_ascii input :=
  fun _ => rfl

end Backslash
